import Mathlib

/-
  Verification of the CGPA prediction API (src/main.py).

  Shallow embedding: the pipeline of the FastAPI handler `predict_cgpa`
  (validate → rename → label-encode → reorder → scale → predict → round →
  clamp → interpret) is embedded as total Lean functions over ℚ, with the
  opaque artifacts (model, scaler, label encoders, feature names) modelled
  as values carrying fallible transform functions.  Python exceptions are
  modelled with `Except`: the `HTTPException`s raised by the handler become
  `PyErr.http status detail`, every other exception becomes `PyErr.other msg`,
  and the handler's trailing `except HTTPException: raise / except Exception`
  block becomes the wrapper `predict_cgpa` around the raw pipeline.
-/

namespace MainPy

/-- A cell value of the single-row DataFrame built from the request:
either a Python int (the age, or an encoded category) or a string. -/
inductive PyVal where
  | int (n : ℤ)
  | str (s : String)
deriving DecidableEq, Repr

/-- Python `str(v)` as applied on line 249 of main.py before the encoder
transform: identity on strings, decimal rendering on ints. -/
def PyVal.toStr : PyVal → String
  | .int n => toString n
  | .str s => s

/-- The nine typed fields of the request body (class StudentInput,
main.py lines 52-113).  Field types follow the pydantic declarations;
the range/enum constraints are the separate predicate `validStudentInput`. -/
structure StudentInput where
  age : ℤ
  gender : String
  course : String
  year : String
  marital_status : String
  depression : String
  anxiety : String
  panic_attack : String
  treatment : String
deriving DecidableEq, Repr

/-- The pydantic validation of StudentInput (main.py lines 57-113):
age is an int in [18, 30], course is a string of length in [2, 100],
and each remaining field must equal one of its `Literal` alternatives. -/
def validStudentInput (s : StudentInput) : Bool :=
  decide (18 ≤ s.age) && decide (s.age ≤ 30) &&
  (s.gender == "Male" || s.gender == "Female") &&
  decide (2 ≤ s.course.length) && decide (s.course.length ≤ 100) &&
  (s.year == "year 1" || s.year == "year 2" || s.year == "year 3" || s.year == "year 4") &&
  (s.marital_status == "Yes" || s.marital_status == "No") &&
  (s.depression == "Yes" || s.depression == "No") &&
  (s.anxiety == "Yes" || s.anxiety == "No") &&
  (s.panic_attack == "Yes" || s.panic_attack == "No") &&
  (s.treatment == "Yes" || s.treatment == "No")

/-- The response model (class PredictionOutput, main.py lines 134-152). -/
structure PredictionOutput where
  predicted_cgpa : ℚ
  cgpa_range : String
  message : String
deriving DecidableEq, Repr

/-- interpret_cgpa (main.py lines 158-180): the top-down if/elif chain
mapping a score to its (range label, message) pair. -/
def interpret_cgpa (cgpa : ℚ) : String × String :=
  if cgpa ≥ 3.50 then
    ("Excellent (3.50 - 4.00)", "Student is performing excellently! Keep up the great work.")
  else if cgpa ≥ 3.00 then
    ("Good (3.00 - 3.49)", "Student is performing well academically.")
  else if cgpa ≥ 2.50 then
    ("Average (2.50 - 2.99)", "Student is performing at an average level. Some improvement possible.")
  else if cgpa ≥ 2.00 then
    ("Below Average (2.00 - 2.49)", "Student may need academic support and intervention.")
  else
    ("Poor (0.00 - 1.99)", "Student requires immediate academic and mental health support.")

/-- Python round-half-to-even of a rational to the nearest integer,
the tie-breaking rule of the builtin `round`. -/
def roundHalfEven (q : ℚ) : ℤ :=
  if q - ⌊q⌋ < 1/2 then ⌊q⌋
  else if q - ⌊q⌋ > 1/2 then ⌊q⌋ + 1
  else if ⌊q⌋ % 2 = 0 then ⌊q⌋ else ⌊q⌋ + 1

/-- Python `round(x, 2)` (main.py line 268): round to 2 decimal places. -/
def pyRound2 (q : ℚ) : ℚ := (roundHalfEven (q * 100) : ℚ) / 100

/-- Python builtin `min(a, b)`: keeps `a` unless `b` compares strictly
smaller. -/
def pyMin (a b : ℚ) : ℚ := if b < a then b else a

/-- Python builtin `max(a, b)`: keeps `a` unless `b` compares strictly
greater. -/
def pyMax (a b : ℚ) : ℚ := if a < b then b else a

/-- The clamp on line 271 of main.py: `max(0.0, min(4.0, x))`. -/
def clampCgpa (q : ℚ) : ℚ := pyMax 0 (pyMin 4 q)

/-- A fitted sklearn LabelEncoder: its `classes_` array.  `transform`
succeeds exactly on strings among `classes`, yielding their index. -/
structure LabelEncoder where
  classes : List String
deriving DecidableEq, Repr

/-- LabelEncoder.transform on a single string: the index of the string in
`classes_`, or failure (sklearn raises ValueError on an unseen label). -/
def LabelEncoder.transform (e : LabelEncoder) (v : String) : Option ℕ :=
  e.classes.indexOf? v

/-- Exceptions the handler body can raise: an `HTTPException(status, detail)`
or any other Python exception carrying its message. -/
inductive PyErr where
  | http (status : ℕ) (detail : String)
  | other (msg : String)
deriving DecidableEq, Repr

/-- The fitted scaler artifact: `scaler.transform` on the single reordered
row, which either yields the numeric vector or raises (e.g. on a shape or
dtype mismatch). -/
structure Scaler where
  transform : List (String × PyVal) → Except String (List ℚ)

/-- The regression model artifact: `model.predict` on the scaled vector,
yielding the scalar score `prediction[0]` or raising. -/
structure Model where
  predict : List ℚ → Except String ℚ

/-- The four artifacts loaded at startup (main.py lines 38-42). -/
structure Artifacts where
  model : Model
  scaler : Scaler
  label_encoders : List (String × LabelEncoder)
  feature_names : List String

/-- The `input_data` dict built on main.py lines 230-240: the request fields
renamed to the training-time column names, in insertion order.  The
single-row DataFrame on line 243 has exactly these columns and cells. -/
def inputData (s : StudentInput) : List (String × PyVal) :=
  [("Age", .int s.age),
   ("Choose your gender", .str s.gender),
   ("What is your course?", .str s.course),
   ("Your current year of Study", .str s.year),
   ("Marital status", .str s.marital_status),
   ("Do you have Depression?", .str s.depression),
   ("Do you have Anxiety?", .str s.anxiety),
   ("Do you have Panic attack?", .str s.panic_attack),
   ("Did you seek any specialist for a treatment?", .str s.treatment)]

/-- The detail string of the 400 response on main.py lines 252-255. -/
def unseenDetail (col : String) (v : PyVal) : String :=
  "Invalid value for " ++ col ++ ": " ++ v.toStr ++
    ". Must be one of the categories in training data."

/-- `input_df[col] = v`: overwrite the cell of column `col`, keeping the
column set and order unchanged. -/
def updateCol (df : List (String × PyVal)) (col : String) (v : PyVal) :
    List (String × PyVal) :=
  df.map (fun p => if p.1 = col then (col, v) else p)

/-- The encoding loop of main.py lines 246-255: for each column of
`label_encoders` (dict order), if it is a column of the DataFrame, replace
the cell by the encoder's code for `str(input_data[col])`; an unseen label
(sklearn ValueError) becomes `HTTPException(400, unseenDetail col v)`; a
column present in the DataFrame but absent from `input_data` would be a
Python KeyError, which the inner `except ValueError` does not catch. -/
def encodeLoop (encs : List (String × LabelEncoder))
    (data df : List (String × PyVal)) : Except PyErr (List (String × PyVal)) :=
  match encs with
  | [] => .ok df
  | (col, enc) :: rest =>
    if (df.lookup col).isSome then
      match data.lookup col with
      | some v =>
        match enc.transform v.toStr with
        | some code => encodeLoop rest data (updateCol df col (.int code))
        | none => .error (.http 400 (unseenDetail col v))
      | none => .error (.other ("KeyError: " ++ col))
    else encodeLoop rest data df

/-- `input_df = input_df[feature_names]` (main.py line 258): select the
columns named in `names`, in that order; pandas raises a KeyError when any
requested column is missing. -/
def reindex (df : List (String × PyVal)) (names : List String) :
    Except PyErr (List (String × PyVal)) :=
  if names.all (fun n => (df.lookup n).isSome) then
    .ok (names.filterMap (fun n => (df.lookup n).map (fun v => (n, v))))
  else .error (.other "KeyError: feature names not in DataFrame columns")

/-- The body of the `try` block of the /predict handler (main.py lines
228-280): build `input_data`, encode the categorical columns, reorder to
`feature_names`, scale, predict, round to 2 decimals, clamp to [0, 4],
interpret, and assemble the response. -/
def pipelineRaw (a : Artifacts) (student : StudentInput) :
    Except PyErr PredictionOutput :=
  let data := inputData student
  match encodeLoop a.label_encoders data data with
  | .error e => .error e
  | .ok df =>
    match reindex df a.feature_names with
    | .error e => .error e
    | .ok df2 =>
      match a.scaler.transform df2 with
      | .error e => .error (.other e)
      | .ok scaled =>
        match a.model.predict scaled with
        | .error e => .error (.other e)
        | .ok raw =>
          let rounded := pyRound2 raw
          let clamped := clampCgpa rounded
          let interp := interpret_cgpa clamped
          .ok ⟨clamped, interp.1, interp.2⟩

/-- predict_cgpa (main.py lines 212-288): the `try` body together with the
trailing handlers — an `HTTPException` is re-raised unchanged, any other
exception is wrapped as `HTTPException(500, "Prediction error: ...")`. -/
def predict_cgpa (a : Artifacts) (student : StudentInput) :
    Except PyErr PredictionOutput :=
  match pipelineRaw a student with
  | .ok out => .ok out
  | .error (.http st d) => .error (.http st d)
  | .error (.other msg) => .error (.http 500 ("Prediction error: " ++ msg))

/-- The outcome of the four `joblib.load` calls (main.py lines 39-42):
`none` models the load raising an exception. -/
structure LoadResults where
  model : Option Model
  scaler : Option Scaler
  label_encoders : Option (List (String × LabelEncoder))
  feature_names : Option (List String)

/-- The startup `try` block (main.py lines 38-46): if any artifact fails to
load the exception is re-raised (`raise`) and the process never serves;
otherwise the four loaded artifacts become the process-wide state. -/
def startup (r : LoadResults) : Option Artifacts :=
  match r.model, r.scaler, r.label_encoders, r.feature_names with
  | some m, some s, some l, some f => some ⟨m, s, l, f⟩
  | _, _, _, _ => none

/-- A JSON value appearing in the /health response object. -/
inductive JsonVal where
  | str (s : String)
  | bool (b : Bool)
deriving DecidableEq, Repr

/-- health_check (main.py lines 200-210): the returned JSON object, as an
ordered key/value list.  Each boolean is the Python `x is not None` test
on the corresponding global. -/
def health_check (r : LoadResults) : List (String × JsonVal) :=
  [("status", .str "healthy"),
   ("model_loaded", .bool r.model.isSome),
   ("scaler_loaded", .bool r.scaler.isSome),
   ("encoders_loaded", .bool r.label_encoders.isSome)]

/-- The /predict route as a transformer of the process-wide state: the
handler reads the artifacts and performs no assignment to any global, so
it returns its response together with the unchanged state. -/
def predictServe (st : Artifacts) (s : StudentInput) :
    (Except PyErr PredictionOutput) × Artifacts :=
  (predict_cgpa st s, st)

/-- The first column of the encoder mapping whose raw request value the
encoder was not fit on, together with that value: the column whose
`transform` call raises the ValueError that the loop of main.py lines
246-255 converts into the 400 response.  Columns absent from `data` are
skipped, mirroring the `if col in input_df.columns` guard. -/
def firstUnseen (encs : List (String × LabelEncoder))
    (data : List (String × PyVal)) : Option (String × PyVal) :=
  match encs with
  | [] => none
  | (col, enc) :: rest =>
    match data.lookup col with
    | some v =>
      if (enc.transform v.toStr).isSome then firstUnseen rest data
      else some (col, v)
    | none => firstUnseen rest data

/-- Two association lists have the same key set (the DataFrame columns
stay those of `input_data` throughout the encoding loop). -/
def sameKeys (df data : List (String × PyVal)) : Prop :=
  ∀ c : String, (df.lookup c).isSome = (data.lookup c).isSome

/-- Label encoders fit on the training categories used by the concrete
test fixtures below: one encoder per categorical training column. -/
def encsW : List (String × LabelEncoder) :=
  [("Choose your gender", ⟨["Female", "Male"]⟩),
   ("What is your course?", ⟨["Engineering", "Law"]⟩),
   ("Your current year of Study", ⟨["year 1", "year 2", "year 3", "year 4"]⟩),
   ("Marital status", ⟨["No", "Yes"]⟩),
   ("Do you have Depression?", ⟨["No", "Yes"]⟩),
   ("Do you have Anxiety?", ⟨["No", "Yes"]⟩),
   ("Do you have Panic attack?", ⟨["No", "Yes"]⟩),
   ("Did you seek any specialist for a treatment?", ⟨["No", "Yes"]⟩)]

/-- The training-time feature order used by the concrete test fixtures. -/
def namesW : List String :=
  ["Age", "Choose your gender", "What is your course?", "Your current year of Study",
   "Marital status", "Do you have Depression?", "Do you have Anxiety?",
   "Do you have Panic attack?", "Did you seek any specialist for a treatment?"]

/-- A concrete artifact set whose model yields the raw score 3.253. -/
def aW : Artifacts :=
  { model := ⟨fun _ => .ok (3253/1000)⟩
    scaler := ⟨fun _ => .ok [0, 1, 2]⟩
    label_encoders := encsW
    feature_names := namesW }

/-- The example request of main.py lines 117-127. -/
def sW : StudentInput :=
  { age := 21, gender := "Male", course := "Engineering", year := "year 2",
    marital_status := "No", depression := "No", anxiety := "Yes",
    panic_attack := "No", treatment := "No" }

/-- The DataFrame row of `sW` after the encoding loop over `encsW`. -/
def dfW : List (String × PyVal) :=
  [("Age", .int 21),
   ("Choose your gender", .int 1),
   ("What is your course?", .int 0),
   ("Your current year of Study", .int 1),
   ("Marital status", .int 0),
   ("Do you have Depression?", .int 0),
   ("Do you have Anxiety?", .int 1),
   ("Do you have Panic attack?", .int 0),
   ("Did you seek any specialist for a treatment?", .int 0)]

/-- A request whose course the course encoder of `encsW` was not fit on. -/
def sBadW : StudentInput :=
  { sW with course := "Basketry" }

/-- A request whose gender value is outside the gender encoder's classes
(it would also fail schema validation, but the encoder stage is what the
pipeline model exercises). -/
def sGenderW : StudentInput :=
  { sW with gender := "Other" }

/-- The response produced by `aW` on `sW`: the raw score 3.253 rounds to
3.25, stays inside [0, 4], and lands in the Good band. -/
def oW : PredictionOutput :=
  ⟨13/4, "Good (3.00 - 3.49)", "Student is performing well academically."⟩

/-- `aW` with a scaler whose transform raises. -/
def aBadScalerW : Artifacts :=
  { aW with scaler := ⟨fun _ => .error "boom"⟩ }

/-- A startup outcome in which all four artifacts loaded. -/
def rAllW : LoadResults :=
  { model := some ⟨fun _ => .ok (3253/1000)⟩
    scaler := some ⟨fun _ => .ok [0, 1, 2]⟩
    label_encoders := some encsW
    feature_names := some namesW }

/-- A startup outcome identical to `rAllW` except that loading
`feature_names.pkl` failed. -/
def rNoFnW : LoadResults :=
  { model := some ⟨fun _ => .ok (3253/1000)⟩
    scaler := some ⟨fun _ => .ok [0, 1, 2]⟩
    label_encoders := some encsW
    feature_names := none }

/-- Overwriting a cell never changes which columns are present. -/
lemma lookup_updateCol_isSome (df : List (String × PyVal)) (col : String)
    (v : PyVal) (c : String) :
    ((updateCol df col v).lookup c).isSome = (df.lookup c).isSome := by
  induction df with
  | nil => rfl
  | cons p t ih =>
    obtain ⟨k, w⟩ := p
    show ((((k, w) :: t).map (fun p => if p.1 = col then (col, v) else p)).lookup c).isSome = _
    by_cases hk : k = col
    · subst hk
      cases hc : c == k <;>
        simp [List.lookup_cons, hc, updateCol] at ih ⊢ <;> exact ih
    · have : ((k, w) : String × PyVal).1 ≠ col := hk
      cases hc : c == k <;>
        simp [List.lookup_cons, hc, hk, updateCol] at ih ⊢ <;> exact ih

lemma sameKeys_updateCol {df data : List (String × PyVal)} (h : sameKeys df data)
    (col : String) (v : PyVal) : sameKeys (updateCol df col v) data := by
  intro c
  rw [lookup_updateCol_isSome]
  exact h c

lemma sameKeys_refl (data : List (String × PyVal)) : sameKeys data data :=
  fun _ => rfl

/-- If the first encoder-column miss over `data` is `(col, v)`, the encoding
loop stops with the 400 HTTPException naming that column and value. -/
lemma encodeLoop_err (encs : List (String × LabelEncoder))
    (data : List (String × PyVal)) :
    ∀ (df : List (String × PyVal)) (col : String) (v : PyVal),
    sameKeys df data → firstUnseen encs data = some (col, v) →
    encodeLoop encs data df = .error (.http 400 (unseenDetail col v)) := by
  induction encs with
  | nil => intro df col v _ h; simp [firstUnseen] at h
  | cons p rest ih =>
    intro df col v hk h
    obtain ⟨c0, enc⟩ := p
    have hdf : (df.lookup c0).isSome = (data.lookup c0).isSome := hk c0
    cases hd : data.lookup c0 with
    | some v0 =>
      rw [hd] at hdf
      cases ht : enc.transform v0.toStr with
      | some code =>
        simp only [firstUnseen, hd, ht, Option.isSome_some, if_true] at h
        simp only [encodeLoop, hdf, if_true, hd, ht]
        exact ih (updateCol df c0 (.int code)) col v (sameKeys_updateCol hk c0 (.int code)) h
      | none =>
        simp only [firstUnseen, hd, ht, Option.isSome_none, Bool.false_eq_true, if_false,
          Option.some.injEq, Prod.mk.injEq] at h
        obtain ⟨hc, hv⟩ := h
        subst hc; subst hv
        simp [encodeLoop, hdf, hd, ht]
    | none =>
      rw [hd] at hdf
      simp only [firstUnseen, hd] at h
      simp only [encodeLoop, hdf, Bool.false_eq_true, if_false]
      exact ih df col v hk h

/-- When every applicable encoder column carries a known category, the
encoding loop succeeds. -/
lemma encodeLoop_ok (encs : List (String × LabelEncoder))
    (data : List (String × PyVal)) :
    ∀ (df : List (String × PyVal)),
    sameKeys df data → firstUnseen encs data = none →
    ∃ df', encodeLoop encs data df = .ok df' ∧ sameKeys df' data := by
  induction encs with
  | nil => intro df hk _; exact ⟨df, rfl, hk⟩
  | cons p rest ih =>
    intro df hk h
    obtain ⟨c0, enc⟩ := p
    have hdf : (df.lookup c0).isSome = (data.lookup c0).isSome := hk c0
    cases hd : data.lookup c0 with
    | some v0 =>
      rw [hd] at hdf
      cases ht : enc.transform v0.toStr with
      | some code =>
        simp only [firstUnseen, hd, ht, Option.isSome_some, if_true] at h
        simp only [encodeLoop, hdf, if_true, hd, ht]
        exact ih (updateCol df c0 (.int code)) (sameKeys_updateCol hk c0 (.int code)) h
      | none =>
        simp only [firstUnseen, hd, ht, Option.isSome_none, Bool.false_eq_true, if_false] at h
        simp at h
    | none =>
      rw [hd] at hdf
      simp only [firstUnseen, hd] at h
      simp only [encodeLoop, hdf, Bool.false_eq_true, if_false]
      exact ih df hk h

lemma pipelineRaw_ok_of (a : Artifacts) (s : StudentInput)
    (df df2 : List (String × PyVal)) (scaled : List ℚ) (raw : ℚ)
    (h1 : encodeLoop a.label_encoders (inputData s) (inputData s) = .ok df)
    (h2 : reindex df a.feature_names = .ok df2)
    (h3 : a.scaler.transform df2 = .ok scaled)
    (h4 : a.model.predict scaled = .ok raw) :
    pipelineRaw a s = .ok ⟨clampCgpa (pyRound2 raw),
      (interpret_cgpa (clampCgpa (pyRound2 raw))).1,
      (interpret_cgpa (clampCgpa (pyRound2 raw))).2⟩ := by
  simp only [pipelineRaw, h1, h2, h3, h4]

/-- Every successful pipeline result is the post-processing of some raw
model score: clamp after rounding, then the interpretation of the clamp. -/
lemma pipelineRaw_ok_elim (a : Artifacts) (s : StudentInput) (o : PredictionOutput)
    (h : pipelineRaw a s = .ok o) :
    ∃ raw : ℚ, o = ⟨clampCgpa (pyRound2 raw),
      (interpret_cgpa (clampCgpa (pyRound2 raw))).1,
      (interpret_cgpa (clampCgpa (pyRound2 raw))).2⟩ := by
  simp only [pipelineRaw] at h
  cases h1 : encodeLoop a.label_encoders (inputData s) (inputData s) with
  | error e => simp only [h1] at h; cases h
  | ok df =>
    simp only [h1] at h
    cases h2 : reindex df a.feature_names with
    | error e => simp only [h2] at h; cases h
    | ok df2 =>
      simp only [h2] at h
      cases h3 : a.scaler.transform df2 with
      | error e => simp only [h3] at h; cases h
      | ok scaled =>
        simp only [h3] at h
        cases h4 : a.model.predict scaled with
        | error e => simp only [h4] at h; cases h
        | ok raw =>
          simp only [h4, Except.ok.injEq] at h
          exact ⟨raw, h.symm⟩

lemma clampCgpa_nonneg (q : ℚ) : 0 ≤ clampCgpa q := by
  unfold clampCgpa pyMax pyMin
  split_ifs <;> linarith

lemma clampCgpa_le_four (q : ℚ) : clampCgpa q ≤ 4 := by
  unfold clampCgpa pyMax pyMin
  split_ifs <;> linarith

/-- A rounded-then-clamped score is an integer number of hundredths. -/
lemma clampCgpa_pyRound2_int_div (raw : ℚ) :
    ∃ n : ℤ, clampCgpa (pyRound2 raw) = (n : ℚ) / 100 := by
  unfold clampCgpa pyMax pyMin pyRound2
  split_ifs
  · exact ⟨roundHalfEven (raw * 100), rfl⟩
  · exact ⟨0, by norm_num⟩
  · exact ⟨400, by norm_num⟩
  · exact ⟨0, by norm_num⟩

lemma den_mul_100 (q : ℚ) (n : ℤ) (h : q = (n : ℚ) / 100) : (q * 100).den = 1 := by
  subst h
  rw [div_mul_cancel₀ _ (by norm_num : (100 : ℚ) ≠ 0)]
  exact Rat.den_intCast n

lemma reindex_error_other (df : List (String × PyVal)) (names : List String)
    (e : PyErr) (h : reindex df names = .error e) : ∃ msg, e = .other msg := by
  unfold reindex at h
  split_ifs at h with hc
  cases h
  exact ⟨_, rfl⟩

/-- The only HTTPException the `try` body raises is the 400 produced by the
encoding loop on the first unseen categorical value. -/
lemma pipelineRaw_http_iff (a : Artifacts) (s : StudentInput) (st : ℕ) (d : String) :
    pipelineRaw a s = .error (.http st d) ↔
      st = 400 ∧ ∃ col v, firstUnseen a.label_encoders (inputData s) = some (col, v) ∧
        d = unseenDetail col v := by
  constructor
  · intro h
    simp only [pipelineRaw] at h
    cases hf : firstUnseen a.label_encoders (inputData s) with
    | some cv =>
      obtain ⟨col, v⟩ := cv
      have henc := encodeLoop_err a.label_encoders (inputData s) (inputData s) col v
        (sameKeys_refl _) hf
      simp only [henc, Except.error.injEq, PyErr.http.injEq] at h
      exact ⟨h.1.symm, col, v, rfl, h.2.symm⟩
    | none =>
      obtain ⟨df, hdf, _⟩ := encodeLoop_ok a.label_encoders (inputData s) (inputData s)
        (sameKeys_refl _) hf
      simp only [hdf] at h
      cases h2 : reindex df a.feature_names with
      | error e =>
        obtain ⟨msg, rfl⟩ := reindex_error_other df a.feature_names e h2
        simp only [h2] at h
        cases h
      | ok df2 =>
        simp only [h2] at h
        cases h3 : a.scaler.transform df2 with
        | error e => simp only [h3] at h; cases h
        | ok scaled =>
          simp only [h3] at h
          cases h4 : a.model.predict scaled with
          | error e => simp only [h4] at h; cases h
          | ok raw => simp only [h4] at h; cases h
  · rintro ⟨rfl, col, v, hf, rfl⟩
    have henc := encodeLoop_err a.label_encoders (inputData s) (inputData s) col v
      (sameKeys_refl _) hf
    simp only [pipelineRaw, henc]

/-- The `except HTTPException: raise` clause: an HTTPException of the body
reaches the caller unchanged. -/
lemma predict_cgpa_http (a : Artifacts) (s : StudentInput) (st : ℕ) (d : String)
    (h : pipelineRaw a s = .error (.http st d)) :
    predict_cgpa a s = .error (.http st d) := by
  simp only [predict_cgpa, h]

/-- The catch-all clause: any non-HTTPException of the body becomes the 500
response with the prefixed message. -/
lemma predict_cgpa_other (a : Artifacts) (s : StudentInput) (e : String)
    (h : pipelineRaw a s = .error (.other e)) :
    predict_cgpa a s = .error (.http 500 ("Prediction error: " ++ e)) := by
  simp only [predict_cgpa, h]

lemma predict_cgpa_ok_iff (a : Artifacts) (s : StudentInput) (o : PredictionOutput) :
    predict_cgpa a s = .ok o ↔ pipelineRaw a s = .ok o := by
  unfold predict_cgpa
  cases hp : pipelineRaw a s with
  | ok o' => simp
  | error e => cases e <;> simp

/-- Concrete evaluation: on the artifacts `aW` and request `sW`, the raw
score 3.253 rounds to 3.25, stays inside the clamp and lands in Good. -/
lemma predict_aW_sW_eval : predict_cgpa aW sW = .ok oW := by
  have hr : pyRound2 (3253/1000) = 13/4 := by
    have hf : (⌊(3253:ℚ)/1000 * 100⌋ : ℤ) = 325 := by
      rw [Int.floor_eq_iff] <;> norm_num
    unfold pyRound2 roundHalfEven
    rw [hf]
    norm_num
  simp [predict_cgpa, pipelineRaw, inputData, encodeLoop, updateCol, reindex,
    LabelEncoder.transform, PyVal.toStr, aW, sW, encsW, namesW, List.lookup,
    List.indexOf?, List.findIdx?, hr, clampCgpa, pyMax, pyMin, interpret_cgpa, oW]
  norm_num

/-- C1: whenever the pipeline stages all succeed and the model yields the
raw score `raw`, the handler's response carries `clampCgpa (pyRound2 raw)` —
the score rounded to 2 decimals first and clamped into [0, 4] second — as
`predicted_cgpa`, and the band and message are `interpret_cgpa` of that
same clamped value. -/
theorem predict_cgpa_round_then_clamp_then_band (a : Artifacts) (s : StudentInput)
    (df df2 : List (String × PyVal)) (scaled : List ℚ) (raw : ℚ)
    (h1 : encodeLoop a.label_encoders (inputData s) (inputData s) = .ok df)
    (h2 : reindex df a.feature_names = .ok df2)
    (h3 : a.scaler.transform df2 = .ok scaled)
    (h4 : a.model.predict scaled = .ok raw) :
    predict_cgpa a s = .ok ⟨clampCgpa (pyRound2 raw),
      (interpret_cgpa (clampCgpa (pyRound2 raw))).1,
      (interpret_cgpa (clampCgpa (pyRound2 raw))).2⟩ :=
  (predict_cgpa_ok_iff a s _).mpr (pipelineRaw_ok_of a s df df2 scaled raw h1 h2 h3 h4)

/-- Witness for C1: on the concrete artifacts `aW` and request `sW` the
stages succeed with raw score 3.253 and the theorem applies. -/
theorem predict_cgpa_round_then_clamp_then_band_witness :
    predict_cgpa aW sW = .ok ⟨clampCgpa (pyRound2 (3253/1000)),
      (interpret_cgpa (clampCgpa (pyRound2 (3253/1000)))).1,
      (interpret_cgpa (clampCgpa (pyRound2 (3253/1000)))).2⟩ :=
  predict_cgpa_round_then_clamp_then_band aW sW dfW dfW [0, 1, 2] (3253/1000)
    (by rfl) (by rfl) (by rfl) (by rfl)

/-- C2: `interpret_cgpa` always answers one of the five fixed pairs, the
thresholds are evaluated top-down with first match wins (each band is the
answer exactly on its half-open interval, the top band unbounded), and at
the boundary scores 3.50, 3.49, 2.99, 2.49 and 1.99 the answers are
Excellent, Good, Average, Below Average and Poor respectively. -/
theorem interpret_cgpa_bands :
    (∀ s : ℚ, interpret_cgpa s ∈
      [("Excellent (3.50 - 4.00)", "Student is performing excellently! Keep up the great work."),
       ("Good (3.00 - 3.49)", "Student is performing well academically."),
       ("Average (2.50 - 2.99)", "Student is performing at an average level. Some improvement possible."),
       ("Below Average (2.00 - 2.49)", "Student may need academic support and intervention."),
       ("Poor (0.00 - 1.99)", "Student requires immediate academic and mental health support.")]) ∧
    (∀ s : ℚ, 3.50 ≤ s → interpret_cgpa s =
      ("Excellent (3.50 - 4.00)", "Student is performing excellently! Keep up the great work.")) ∧
    (∀ s : ℚ, 3.00 ≤ s → s < 3.50 → interpret_cgpa s =
      ("Good (3.00 - 3.49)", "Student is performing well academically.")) ∧
    (∀ s : ℚ, 2.50 ≤ s → s < 3.00 → interpret_cgpa s =
      ("Average (2.50 - 2.99)", "Student is performing at an average level. Some improvement possible.")) ∧
    (∀ s : ℚ, 2.00 ≤ s → s < 2.50 → interpret_cgpa s =
      ("Below Average (2.00 - 2.49)", "Student may need academic support and intervention.")) ∧
    (∀ s : ℚ, s < 2.00 → interpret_cgpa s =
      ("Poor (0.00 - 1.99)", "Student requires immediate academic and mental health support.")) ∧
    interpret_cgpa 3.50 =
      ("Excellent (3.50 - 4.00)", "Student is performing excellently! Keep up the great work.") ∧
    interpret_cgpa 3.49 =
      ("Good (3.00 - 3.49)", "Student is performing well academically.") ∧
    interpret_cgpa 2.99 =
      ("Average (2.50 - 2.99)", "Student is performing at an average level. Some improvement possible.") ∧
    interpret_cgpa 2.49 =
      ("Below Average (2.00 - 2.49)", "Student may need academic support and intervention.") ∧
    interpret_cgpa 1.99 =
      ("Poor (0.00 - 1.99)", "Student requires immediate academic and mental health support.") := by
  refine ⟨?_, ?_, ?_, ?_, ?_, ?_, ?_, ?_, ?_, ?_, ?_⟩
  · intro s
    unfold interpret_cgpa
    split_ifs <;> simp
  · intro s h
    unfold interpret_cgpa
    split_ifs <;> first | rfl | linarith
  · intro s h1 h2
    unfold interpret_cgpa
    split_ifs <;> first | rfl | linarith
  · intro s h1 h2
    unfold interpret_cgpa
    split_ifs <;> first | rfl | linarith
  · intro s h1 h2
    unfold interpret_cgpa
    split_ifs <;> first | rfl | linarith
  · intro s h
    unfold interpret_cgpa
    split_ifs <;> first | rfl | linarith
  · unfold interpret_cgpa
    norm_num
  · unfold interpret_cgpa
    norm_num
  · unfold interpret_cgpa
    norm_num
  · unfold interpret_cgpa
    norm_num
  · unfold interpret_cgpa
    norm_num

/-- Witness for C2: the interval clauses applied at interior points. -/
theorem interpret_cgpa_bands_witness :
    interpret_cgpa 3.9 =
      ("Excellent (3.50 - 4.00)", "Student is performing excellently! Keep up the great work.") ∧
    interpret_cgpa 3.2 =
      ("Good (3.00 - 3.49)", "Student is performing well academically.") ∧
    interpret_cgpa 0.7 =
      ("Poor (0.00 - 1.99)", "Student requires immediate academic and mental health support.") :=
  ⟨interpret_cgpa_bands.2.1 3.9 (by norm_num),
   interpret_cgpa_bands.2.2.1 3.2 (by norm_num) (by norm_num),
   interpret_cgpa_bands.2.2.2.2.2.1 0.7 (by norm_num)⟩

/-- C3: every successful /predict response has its `predicted_cgpa` inside
[0, 4] and equal to a whole number of hundredths (2 decimal digits). -/
theorem predicted_cgpa_range_two_decimals (a : Artifacts) (s : StudentInput)
    (o : PredictionOutput) (h : predict_cgpa a s = .ok o) :
    0 ≤ o.predicted_cgpa ∧ o.predicted_cgpa ≤ 4 ∧ (o.predicted_cgpa * 100).den = 1 := by
  obtain ⟨raw, rfl⟩ := pipelineRaw_ok_elim a s o ((predict_cgpa_ok_iff a s o).mp h)
  obtain ⟨n, hn⟩ := clampCgpa_pyRound2_int_div raw
  exact ⟨clampCgpa_nonneg _, clampCgpa_le_four _, den_mul_100 _ n hn⟩

/-- Witness for C3: the concrete response `oW` of `aW` on `sW`. -/
theorem predicted_cgpa_range_two_decimals_witness :
    0 ≤ oW.predicted_cgpa ∧ oW.predicted_cgpa ≤ 4 ∧ (oW.predicted_cgpa * 100).den = 1 :=
  predicted_cgpa_range_two_decimals aW sW oW predict_aW_sW_eval

/-- C7: the /predict handler, viewed as a transformer of the process-wide
artifact state, leaves the state unchanged, so running the same request
twice from the same state yields the identical response both times. -/
theorem predict_idempotent_no_mutation (st : Artifacts) (s : StudentInput) :
    (predictServe st s).1 = (predictServe (predictServe st s).2 s).1 ∧
    (predictServe (predictServe st s).2 s).2 = st :=
  ⟨rfl, rfl⟩

/-- C4: when the first encoder column whose raw value is outside its
encoder's fit categories is `(col, v)`, the handler fails with the 400
HTTPException whose detail names that column and value — and it does so
whatever model and scaler are installed, i.e. no prediction is made. -/
theorem predict_unseen_category_400 (a : Artifacts) (s : StudentInput)
    (col : String) (v : PyVal)
    (h : firstUnseen a.label_encoders (inputData s) = some (col, v)) :
    predict_cgpa a s = .error (.http 400 (unseenDetail col v)) ∧
    ∀ (m : Model) (sc : Scaler),
      predict_cgpa ⟨m, sc, a.label_encoders, a.feature_names⟩ s =
        .error (.http 400 (unseenDetail col v)) := by
  have key : ∀ (m : Model) (sc : Scaler),
      predict_cgpa ⟨m, sc, a.label_encoders, a.feature_names⟩ s =
        .error (.http 400 (unseenDetail col v)) := by
    intro m sc
    have henc := encodeLoop_err a.label_encoders (inputData s) (inputData s) col v
      (sameKeys_refl _) h
    exact predict_cgpa_http _ s 400 _ (by simp only [pipelineRaw, henc])
  exact ⟨key a.model a.scaler, key⟩

/-- Witness for C4: the course "Basketry" is outside the course encoder's
categories, and the response is the 400 naming the course column. -/
theorem predict_unseen_category_400_witness :
    predict_cgpa aW sBadW =
      .error (.http 400 (unseenDetail "What is your course?" (.str "Basketry"))) :=
  (predict_unseen_category_400 aW sBadW "What is your course?" (.str "Basketry")
    (by rfl)).1

/-- C5: schema validation accepts a StudentInput exactly when the age is in
[18, 30], the course length is in [2, 100] and every enum field equals one
of its declared literals; in particular ages 17 and 31 and course lengths
1 and 101 are rejected while ages 18 and 30 and course lengths 2 and 100
are accepted, and out-of-set enum values are rejected. -/
theorem studentInput_validation_boundaries :
    (∀ s : StudentInput, validStudentInput s = true ↔
      (18 ≤ s.age ∧ s.age ≤ 30 ∧
       (s.gender = "Male" ∨ s.gender = "Female") ∧
       2 ≤ s.course.length ∧ s.course.length ≤ 100 ∧
       (s.year = "year 1" ∨ s.year = "year 2" ∨ s.year = "year 3" ∨ s.year = "year 4") ∧
       (s.marital_status = "Yes" ∨ s.marital_status = "No") ∧
       (s.depression = "Yes" ∨ s.depression = "No") ∧
       (s.anxiety = "Yes" ∨ s.anxiety = "No") ∧
       (s.panic_attack = "Yes" ∨ s.panic_attack = "No") ∧
       (s.treatment = "Yes" ∨ s.treatment = "No"))) ∧
    validStudentInput { sW with age := 17 } = false ∧
    validStudentInput { sW with age := 18 } = true ∧
    validStudentInput { sW with age := 30 } = true ∧
    validStudentInput { sW with age := 31 } = false ∧
    validStudentInput { sW with course := "A" } = false ∧
    validStudentInput { sW with course := "AB" } = true ∧
    validStudentInput { sW with course := String.mk (List.replicate 100 'a') } = true ∧
    validStudentInput { sW with course := String.mk (List.replicate 101 'a') } = false ∧
    validStudentInput { sW with gender := "Other" } = false ∧
    validStudentInput { sW with year := "year 5" } = false := by
  refine ⟨?_, by decide, by decide, by decide, by decide, by decide, by decide,
    by decide, by decide, by decide, by decide⟩
  intro s
  simp [validStudentInput, and_assoc, or_assoc]

/-- C6 counterexample: /health does not report the feature-names artifact —
two startup outcomes that differ exactly in whether `feature_names.pkl`
loaded produce identical /health bodies, and the body's keys carry only
three artifact booleans. -/
theorem health_check_ignores_feature_names :
    health_check rAllW = health_check rNoFnW ∧
    rAllW.feature_names.isSome = true ∧
    rNoFnW.feature_names.isSome = false ∧
    (health_check rAllW).map Prod.fst =
      ["status", "model_loaded", "scaler_loaded", "encoders_loaded"] :=
  ⟨rfl, rfl, rfl, rfl⟩

/-- C6 (amended): /health reports status "healthy" and true-boolean load
outcomes for three of the four artifacts — model, scaler and label
encoders — while the feature-names artifact is not reported. -/
theorem health_check_reports_three_artifacts (r : LoadResults) :
    (health_check r).lookup "status" = some (.str "healthy") ∧
    (health_check r).lookup "model_loaded" = some (.bool r.model.isSome) ∧
    (health_check r).lookup "scaler_loaded" = some (.bool r.scaler.isSome) ∧
    (health_check r).lookup "encoders_loaded" = some (.bool r.label_encoders.isSome) ∧
    (health_check r).map Prod.fst =
      ["status", "model_loaded", "scaler_loaded", "encoders_loaded"] :=
  ⟨rfl, rfl, rfl, rfl, rfl⟩

/-- C8: any pipeline failure that is not an HTTPException — encoding
KeyErrors, the reindexing KeyError on feature-name drift, scaler failures
and model failures — surfaces as the 500 response with the prefixed
message, and the handler never substitutes a fallback prediction. -/
theorem predict_internal_error_500 (a : Artifacts) (s : StudentInput) :
    (∀ e, pipelineRaw a s = .error (.other e) →
      predict_cgpa a s = .error (.http 500 ("Prediction error: " ++ e)) ∧
      ∀ o : PredictionOutput, predict_cgpa a s ≠ .ok o) ∧
    (∀ df, encodeLoop a.label_encoders (inputData s) (inputData s) = .ok df →
      ∀ e, reindex df a.feature_names = .error (.other e) →
      predict_cgpa a s = .error (.http 500 ("Prediction error: " ++ e))) ∧
    (∀ df df2, encodeLoop a.label_encoders (inputData s) (inputData s) = .ok df →
      reindex df a.feature_names = .ok df2 →
      ∀ e, a.scaler.transform df2 = .error e →
      predict_cgpa a s = .error (.http 500 ("Prediction error: " ++ e))) ∧
    (∀ df df2 scaled, encodeLoop a.label_encoders (inputData s) (inputData s) = .ok df →
      reindex df a.feature_names = .ok df2 →
      a.scaler.transform df2 = .ok scaled →
      ∀ e, a.model.predict scaled = .error e →
      predict_cgpa a s = .error (.http 500 ("Prediction error: " ++ e))) := by
  refine ⟨?_, ?_, ?_, ?_⟩
  · intro e he
    refine ⟨predict_cgpa_other a s e he, ?_⟩
    intro o hok
    rw [predict_cgpa_ok_iff] at hok
    rw [he] at hok
    cases hok
  · intro df h1 e h2
    exact predict_cgpa_other a s e (by simp only [pipelineRaw, h1, h2])
  · intro df df2 h1 h2 e h3
    exact predict_cgpa_other a s e (by simp only [pipelineRaw, h1, h2, h3])
  · intro df df2 scaled h1 h2 h3 e h4
    exact predict_cgpa_other a s e (by simp only [pipelineRaw, h1, h2, h3, h4])

/-- Witness for C8: a scaler whose transform raises "boom" turns into the
500 response carrying the prefixed message. -/
theorem predict_internal_error_500_witness :
    predict_cgpa aBadScalerW sW = .error (.http 500 ("Prediction error: " ++ "boom")) :=
  (predict_internal_error_500 aBadScalerW sW).2.2.1 dfW dfW (by rfl) (by rfl) "boom" (by rfl)

/-- C9: the startup block re-raises when any of the four artifacts fails
to load, so in every state where the server answers requests at all (i.e.
`startup` succeeded), /health necessarily reports every boolean it carries
as true. -/
theorem serving_implies_health_all_true (r : LoadResults) (a : Artifacts)
    (h : startup r = some a) :
    health_check r = [("status", .str "healthy"), ("model_loaded", .bool true),
      ("scaler_loaded", .bool true), ("encoders_loaded", .bool true)] := by
  unfold startup at h
  cases hm : r.model with
  | none => rw [hm] at h; cases h
  | some m =>
    cases hs : r.scaler with
    | none => rw [hm, hs] at h; cases h
    | some sc =>
      cases hl : r.label_encoders with
      | none => rw [hm, hs, hl] at h; cases h
      | some l =>
        cases hf : r.feature_names with
        | none => rw [hm, hs, hl, hf] at h; cases h
        | some f => simp [health_check, hm, hs, hl]

/-- Witness for C9: the all-loaded startup outcome `rAllW` serves `aW` and
its health body is all-true. -/
theorem serving_implies_health_all_true_witness :
    health_check rAllW = [("status", .str "healthy"), ("model_loaded", .bool true),
      ("scaler_loaded", .bool true), ("encoders_loaded", .bool true)] :=
  serving_implies_health_all_true rAllW aW (by rfl)

/-- C10: an HTTPException raised inside the pipeline passes through the
handler unchanged; the response is a 400 exactly when a categorical
encoder rejected a value; and every 500 response comes from a
non-HTTPException failure wrapped with the generic prefix. -/
theorem predict_http_status_dichotomy (a : Artifacts) (s : StudentInput) :
    (∀ st d, pipelineRaw a s = .error (.http st d) →
      predict_cgpa a s = .error (.http st d)) ∧
    ((∃ d, predict_cgpa a s = .error (.http 400 d)) ↔
      ∃ col v, firstUnseen a.label_encoders (inputData s) = some (col, v)) ∧
    (∀ d, predict_cgpa a s = .error (.http 500 d) →
      ∃ e, pipelineRaw a s = .error (.other e) ∧ d = "Prediction error: " ++ e) := by
  refine ⟨fun st d h => predict_cgpa_http a s st d h, ⟨?_, ?_⟩, ?_⟩
  · rintro ⟨d, hd⟩
    unfold predict_cgpa at hd
    cases hp : pipelineRaw a s with
    | ok o => simp only [hp] at hd; cases hd
    | error e =>
      cases e with
      | http st d' =>
        obtain ⟨_, col, v, hf, _⟩ := (pipelineRaw_http_iff a s st d').mp hp
        exact ⟨col, v, hf⟩
      | other e =>
        simp only [hp, Except.error.injEq, PyErr.http.injEq] at hd
        omega
  · rintro ⟨col, v, hf⟩
    have henc := encodeLoop_err a.label_encoders (inputData s) (inputData s) col v
      (sameKeys_refl _) hf
    exact ⟨unseenDetail col v, predict_cgpa_http a s 400 (unseenDetail col v)
      (by simp only [pipelineRaw, henc])⟩
  · intro d hd
    unfold predict_cgpa at hd
    cases hp : pipelineRaw a s with
    | ok o => simp only [hp] at hd; cases hd
    | error e =>
      cases e with
      | http st d' =>
        simp only [hp, Except.error.injEq, PyErr.http.injEq] at hd
        obtain ⟨h400, _⟩ := (pipelineRaw_http_iff a s st d').mp hp
        omega
      | other e =>
        simp only [hp, Except.error.injEq, PyErr.http.injEq, and_true, true_and] at hd
        exact ⟨e, rfl, hd.symm⟩

/-- Witness for C10: on the unseen gender "Other", the pipeline's 400 is
passed through to the caller unchanged. -/
theorem predict_http_status_dichotomy_witness :
    predict_cgpa aW sGenderW =
      .error (.http 400 (unseenDetail "Choose your gender" (.str "Other"))) :=
  (predict_http_status_dichotomy aW sGenderW).1 400
    (unseenDetail "Choose your gender" (.str "Other")) (by rfl)

end MainPy
